import Mathlib

/-!
Shallow embedding of `fatal/type/pair.h` from the `fatal` C++ template
metaprogramming library.

The header is pure type-level computation: a C++ "type" is modelled here as
an element of an arbitrary universe `Ty : Type`, a C++ template taking one
type parameter (`template <typename...> class`, used unarily) as a function
`Ty → Ty`, and a template taking two parameters as `Ty → Ty → Ty`.
Template instantiation then becomes function application, and equality of
the resulting C++ types becomes equality in `Ty`.
-/

namespace Fatal

/-- A compile-time pair of two type identities, embedding
`template <typename TFirst, typename TSecond> struct type_pair` with its
member aliases `first = TFirst` and `second = TSecond`
(src/fatal/type/pair.h, lines 26-29). -/
structure type_pair (Ty : Type) where
  first : Ty
  second : Ty
  deriving DecidableEq, Repr

/-- Modelled from the spec: `identity_transform` lives in
`fatal/type/transform.h`, which is not part of the sources here; the pair
header documents that with the transform parameters defaulted the
meta-functions behave as the identity, so it is the identity
type-to-type transform. -/
def identity_transform {Ty : Type} (T : Ty) : Ty := T

/-- `type_pair::invert`: a `type_pair` with `first` and `second` swapped,
embedding `using invert = type_pair<TSecond, TFirst>`
(src/fatal/type/pair.h, line 43). -/
def type_pair.invert {Ty : Type} (p : type_pair Ty) : type_pair Ty :=
  type_pair.mk p.second p.first

/-- `type_pair::apply<T, TFirstTransform, TSecondTransform>`, embedding
`using apply = T<TFirstTransform<first>, TSecondTransform<second>>`
(src/fatal/type/pair.h, lines 67-72). The C++ transform parameters default
to `identity_transform`; here the defaults are passed explicitly. -/
def type_pair.apply {Ty : Type} (p : type_pair Ty) (T : Ty → Ty → Ty)
    (TFirstTransform TSecondTransform : Ty → Ty) : Ty :=
  T (TFirstTransform p.first) (TSecondTransform p.second)

/-- `type_pair::transform<TFirstTransform, TSecondTransform>`, embedding
`using transform = type_pair<TFirstTransform<first>, TSecondTransform<second>>`
(src/fatal/type/pair.h, lines 95-99). The C++ transform parameters default
to `identity_transform`; here the defaults are passed explicitly. -/
def type_pair.transform {Ty : Type} (p : type_pair Ty)
    (TFirstTransform TSecondTransform : Ty → Ty) : type_pair Ty :=
  type_pair.mk (TFirstTransform p.first) (TSecondTransform p.second)

/-- `type_pair_from<TFirstTransform, TSecondTransform>::type<U>`, embedding
`using type = type_pair<TFirstTransform<U>, TSecondTransform<U>>`
(src/fatal/type/pair.h, lines 110-135). The C++ transform parameters
default to `identity_transform`; here the defaults are passed explicitly. -/
def type_pair_from.type {Ty : Type} (TFirstTransform TSecondTransform : Ty → Ty)
    (U : Ty) : type_pair Ty :=
  type_pair.mk (TFirstTransform U) (TSecondTransform U)

/-- The `type_get_traits` specialization for `type_pair`
(src/fatal/type/pair.h, lines 142-146):
`static_assert(Index < 2, "index out of bounds");`
`using type = typename std::conditional<Index == 0, TFirst, TSecond>::type;`.
The compile-time assertion failure is embedded as `none`: a well-formed
instantiation (the assertion holds) yields `some` of the selected type. -/
def type_get_traits {Ty : Type} (p : type_pair Ty) (Index : Nat) : Option Ty :=
  if Index < 2 then some (if Index = 0 then p.first else p.second) else none

end Fatal

namespace Fatal

/-- C1: indexed selection on `type_pair` through `type_get_traits` produces
a selected type exactly when the index is 0 or 1; for an out-of-range index
(`Index ≥ 2`) the compile-time assertion rejects the instantiation and no
selection result is produced. -/
theorem type_get_traits_in_bounds {Ty : Type} (p : type_pair Ty) (Index : Nat) :
    ((∃ t, type_get_traits p Index = some t) ↔ Index < 2) ∧
    (Index = 0 ∨ Index = 1 ↔ Index < 2) := by
  constructor
  · constructor
    · rintro ⟨t, ht⟩
      by_contra hge
      simp [type_get_traits, hge] at ht
    · intro hlt
      exact ⟨if Index = 0 then p.first else p.second, by simp [type_get_traits, hlt]⟩
  · omega

/-- C2: `invert` on `type_pair<A, B>` yields `type_pair<B, A>`, exchanging
the `first` and `second` slots. -/
theorem invert_swaps {Ty : Type} (A B : Ty) :
    (type_pair.mk A B).invert = type_pair.mk B A := rfl

/-- C3: `apply<T, F, G>` on `type_pair<A, B>` yields `T<F<A>, G<B>>`, each
slot pre-transformed by its own transform; with the transforms defaulted to
`identity_transform`, `apply<T>` yields `T<A, B>`. -/
theorem apply_applies_transformed {Ty : Type} (A B : Ty) (T : Ty → Ty → Ty)
    (F G : Ty → Ty) :
    (type_pair.mk A B).apply T F G = T (F A) (G B) ∧
    (type_pair.mk A B).apply T identity_transform identity_transform = T A B :=
  ⟨rfl, rfl⟩

/-- C4: `transform<F, G>` on `type_pair<A, B>` yields
`type_pair<F<A>, G<B>>`: each transform acts on its own slot,
independently of the other slot. -/
theorem transform_acts_slotwise {Ty : Type} (A B : Ty) (F G : Ty → Ty) :
    (type_pair.mk A B).transform F G = type_pair.mk (F A) (G B) := rfl

/-- C5: `type_pair<A, B>` exposes `first = A` and `second = B`, and indexed
selection yields `first` at index 0 and `second` at index 1. -/
theorem first_second_aliases {Ty : Type} (A B : Ty) :
    (type_pair.mk A B).first = A ∧ (type_pair.mk A B).second = B ∧
    type_get_traits (type_pair.mk A B) 0 = some A ∧
    type_get_traits (type_pair.mk A B) 1 = some B :=
  ⟨rfl, rfl, rfl, rfl⟩

/-- C6: other than the bounds-checked indexed selection, every operation of
`type_pair` is total: for all type arguments, `first`, `second`, `invert`,
`apply`, `transform` and `type_pair_from::type` each resolve to a result. -/
theorem operations_total {Ty : Type} (p : type_pair Ty) (T : Ty → Ty → Ty)
    (F G : Ty → Ty) (U : Ty) :
    (∃ a, p.first = a) ∧ (∃ b, p.second = b) ∧
    (∃ q, p.invert = q) ∧ (∃ r, p.apply T F G = r) ∧
    (∃ q, p.transform F G = q) ∧ (∃ q, type_pair_from.type F G U = q) :=
  ⟨⟨_, rfl⟩, ⟨_, rfl⟩, ⟨_, rfl⟩, ⟨_, rfl⟩, ⟨_, rfl⟩, ⟨_, rfl⟩⟩

/-- C7: every operation of `type_pair` is a pure deterministic function of
its type arguments: two evaluations with equal arguments yield equal
results, with no dependence on any state. -/
theorem operations_deterministic {Ty : Type} (p q : type_pair Ty)
    (T : Ty → Ty → Ty) (F G : Ty → Ty) (i : Nat) (h : p = q) :
    p.invert = q.invert ∧ p.apply T F G = q.apply T F G ∧
    p.transform F G = q.transform F G ∧
    type_get_traits p i = type_get_traits q i := by
  subst h
  exact ⟨rfl, rfl, rfl, rfl⟩

/-- Witness for C7 at a concrete instantiation of the universe of types. -/
theorem operations_deterministic_witness :
    (type_pair.mk 0 1 : type_pair Nat).invert = (type_pair.mk 0 1).invert ∧
    (type_pair.mk 0 1 : type_pair Nat).apply Nat.add Nat.succ Nat.succ =
      (type_pair.mk 0 1).apply Nat.add Nat.succ Nat.succ ∧
    (type_pair.mk 0 1 : type_pair Nat).transform Nat.succ Nat.succ =
      (type_pair.mk 0 1).transform Nat.succ Nat.succ ∧
    type_get_traits (type_pair.mk 0 1 : type_pair Nat) 0 =
      type_get_traits (type_pair.mk 0 1) 0 :=
  operations_deterministic (type_pair.mk 0 1) (type_pair.mk 0 1)
    Nat.add Nat.succ Nat.succ 0 rfl

/-- C8: `invert` is an involution: inverting a `type_pair` twice yields the
original pair. -/
theorem invert_involution {Ty : Type} (p : type_pair Ty) :
    p.invert.invert = p := rfl

/-- C9: with both transform parameters defaulted to `identity_transform`,
`transform` is the identity on the pair. -/
theorem transform_defaults_identity {Ty : Type} (p : type_pair Ty) :
    p.transform identity_transform identity_transform = p := rfl

/-- C10: `type_pair_from<F, G>::type<U>` yields `type_pair<F<U>, G<U>>`;
with both transforms defaulted to `identity_transform` it yields
`type_pair<U, U>`, duplicating the input type into both slots. -/
theorem type_pair_from_spec {Ty : Type} (F G : Ty → Ty) (U : Ty) :
    type_pair_from.type F G U = type_pair.mk (F U) (G U) ∧
    type_pair_from.type identity_transform identity_transform U =
      type_pair.mk U U :=
  ⟨rfl, rfl⟩

end Fatal
